import Mathlib

/-!
Shallow embedding of the bitstorm.js content distribution and caching engine
(`bitstorm.content.server.js` / `bitstorm.core.js`): the `BitstormEmitter`
listener table, the `BitstormResourceRequest` lifecycle (cache lookup,
network fetch, cache write-back), the `BitstormDataStore` wrapper, and the
`BitstormContentServer` origin registry with its load-based selection.

JavaScript numbers used as counters are modelled as `Int` (the `++`/`--`
operators), object property maps as association lists from `String` keys,
and the asynchronous environment (IndexedDB outcomes, XHR outcomes) as
explicit outcome parameters.  Code paths that throw an uncaught exception
(e.g. a property access on `null`, or `IDBDatabase.transaction` invoked
after `close()`, which throws `InvalidStateError` per the IndexedDB
specification) are modelled as an explicit crash marker instead of emitted
events.
-/

namespace Bitstorm

/-- Association-list lookup, modelling a read `obj[key]` of a JavaScript
object used as a map (`none` = property absent / `undefined`). -/
def alistLookup {β : Type} : List (String × β) → String → Option β
  | [], _ => none
  | (k, v) :: rest, key => if k = key then some v else alistLookup rest key

/-- Association-list update, modelling a write `obj[key] = v` of a JavaScript
object used as a map: replaces the binding if the key is present, otherwise
appends it. -/
def alistSet {β : Type} : List (String × β) → String → β → List (String × β)
  | [], key, v => [(key, v)]
  | (k, w) :: rest, key, v =>
      if k = key then (key, v) :: rest else (k, w) :: alistSet rest key v

/-- Association-list removal, modelling `delete obj[key]`. -/
def alistRemove {β : Type} : List (String × β) → String → List (String × β)
  | [], _ => []
  | (k, v) :: rest, key => if k = key then rest else (k, v) :: alistRemove rest key

/-! ## BitstormEmitter (bitstorm.core.js)

Callbacks are identified abstractly by natural numbers.  A listener table
entry maps an event-name key to either a list of callbacks or `null`
(`removeAllListeners` stores `null` rather than deleting the key). -/

/-- A callback identifier. -/
abbrev Callback := Nat

/-- The `this.listeners` object of a `BitstormEmitter`: event name to either
a callback list or `null` (written by `removeAllListeners`). -/
abbrev ListenerMap := List (String × Option (List Callback))

/-- `BitstormEmitter.prototype.on`: `handler = listeners[event] || []` then
push the callback and store the handler list back. -/
def onEvent (m : ListenerMap) (event : String) (cb : Callback) : ListenerMap :=
  let handler : List Callback :=
    match alistLookup m event with
    | some (some cbs) => cbs
    | _ => []
  alistSet m event (some (handler ++ [cb]))

/-- `BitstormEmitter.prototype.removeAllListeners`: `listeners[event] = null`.
The parameter is the event-name string the property write actually uses. -/
def removeAllListeners (m : ListenerMap) (event : String) : ListenerMap :=
  alistSet m event none

/-- The property key JavaScript uses when `removeAllListeners()` is called
with no argument: the parameter `event` is `undefined`, which is coerced to
the string `"undefined"` when used as a property key. -/
def undefinedKey : String := "undefined"

/-- `BitstormEmitter.prototype.emit`: `listener = listeners[event]`, and the
callbacks are invoked only when that value is truthy (not absent, not
`null`).  Returns the list of callbacks that get invoked. -/
def emitListeners (m : ListenerMap) (event : String) : List Callback :=
  match alistLookup m event with
  | some (some cbs) => cbs
  | _ => []

/-! ## Resource request lifecycle (BitstormResourceRequest) -/

/-- Events a `BitstormResourceRequest` emits: `data` (terminal success with
the payload), `error` (terminal failure with `xhr.statusText`), and
`progress`.  The payload type `α` stands for the downloaded data. -/
inductive REvent (α : Type) where
  | data (payload : α)
  | error (statusText : String)
  | progress (info : Nat)
deriving DecidableEq

/-- `true` exactly on the terminal events `data` and `error`. -/
def isTerminal {α : Type} : REvent α → Bool
  | REvent.data _ => true
  | REvent.error _ => true
  | REvent.progress _ => false

/-- Number of terminal events in an emitted event list. -/
def terminalCount {α : Type} (evs : List (REvent α)) : Nat :=
  (evs.filter isTerminal).length

/-- Outcome of the IndexedDB write-back transaction in `cacheData`: either
`txn.oncomplete` or `txn.onerror` fires. -/
inductive WriteOutcome where
  | complete
  | error
deriving DecidableEq

/-- Outcome of the XMLHttpRequest in `downloadData`: `xhr.onload` fires with
an HTTP status and a response, or `xhr.onerror` fires. -/
inductive NetOutcome (α : Type) where
  | loaded (status : Nat) (response : α)
  | netError
deriving DecidableEq

/-- Outcome of the IndexedDB `get` in `queryDataStore`: `req.onsuccess` with
`req.result` defined (cache hit), `req.onsuccess` with `req.result`
`undefined` (miss), or `req.onerror` (lookup failure). -/
inductive LookupOutcome (α : Type) where
  | hit (value : α)
  | miss
  | lookupError
deriving DecidableEq

/-- `BitstormResourceRequest.prototype.cacheData`: creates a READ_WRITE
transaction on `this.store.db`, puts metadata and file data, and emits
`data` with the already-downloaded payload from both `txn.oncomplete` and
`txn.onerror`.  `dbOpen` is the state of the store's IndexedDB connection:
if `close()` has been called on it, `db.transaction` throws
`InvalidStateError` (IndexedDB specification), so no event is emitted and
the second component records the crash. -/
def cacheData {α : Type} (dbOpen : Bool) (w : WriteOutcome) (payload : α) :
    List (REvent α) × Bool :=
  if dbOpen then
    match w with
    | WriteOutcome.complete => ([REvent.data payload], false)
    | WriteOutcome.error => ([REvent.data payload], false)
  else
    ([], true)

/-- `BitstormResourceRequest.prototype.downloadData`: issues the XHR; on
`xhr.onload` a status in [200,300) leads to `cacheData`, any other status
emits `error` with `xhr.statusText`; `xhr.onerror` emits `error`.
`progressEvents` are the `xhr.onprogress` firings (each re-emitted as a
`progress` event before the load/error callback). -/
def downloadData {α : Type} (progressEvents : List Nat) (statusText : String)
    (net : NetOutcome α) (dbOpen : Bool) (w : WriteOutcome) :
    List (REvent α) × Bool :=
  let pevs : List (REvent α) := progressEvents.map REvent.progress
  match net with
  | NetOutcome.loaded stat response =>
      if 200 ≤ stat ∧ stat < 300 then
        let r := cacheData dbOpen w response
        (pevs ++ r.1, r.2)
      else
        (pevs ++ [REvent.error statusText], false)
  | NetOutcome.netError =>
      (pevs ++ [REvent.error statusText], false)

/-- `BitstormResourceRequest.prototype.queryDataStore`: a cache hit emits
`data` with the cached value; a miss or a lookup error falls through to
`downloadData`.  (The READ_ONLY transaction here is created synchronously
while the store is still ready, so it cannot hit a closed connection.) -/
def queryDataStore {α : Type} (lookup : LookupOutcome α) (progressEvents : List Nat)
    (statusText : String) (net : NetOutcome α) (dbOpen : Bool) (w : WriteOutcome) :
    List (REvent α) × Bool :=
  match lookup with
  | LookupOutcome.hit v => ([REvent.data v], false)
  | LookupOutcome.miss => downloadData progressEvents statusText net dbOpen w
  | LookupOutcome.lookupError => downloadData progressEvents statusText net dbOpen w

/-- `BitstormResourceRequest.prototype.start` on a not-yet-started request:
`checkCache != false` queries the data store first, otherwise the download
begins immediately. -/
def start {α : Type} (checkCache : Bool) (lookup : LookupOutcome α)
    (progressEvents : List Nat) (statusText : String) (net : NetOutcome α)
    (dbOpen : Bool) (w : WriteOutcome) : List (REvent α) × Bool :=
  if checkCache then
    queryDataStore lookup progressEvents statusText net dbOpen w
  else
    downloadData progressEvents statusText net dbOpen w

/-! ## BitstormDataStore -/

/-- The fields of a `BitstormDataStore` relevant here: its name, the `ready`
flag, and whether the IndexedDB connection is open (i.e. `close()` has not
been called on `this.db`). -/
structure DataStoreRec where
  name : String
  ready : Bool
  dbOpen : Bool
deriving DecidableEq

/-- `BitstormDataStore.prototype.close`: when `ready`, clears `ready`, emits
`closing`, and calls `this.db.close()`.  Returns the updated store and
whether the `closing` event was emitted. -/
def closeStore (ds : DataStoreRec) : DataStoreRec × Bool :=
  if ds.ready then
    ({ ds with ready := false, dbOpen := false }, true)
  else
    (ds, false)

/-- `BitstormDataStore.prototype.createRequest` URL construction:
`url = server; if (url.length > 0 && url[url.length-1] != '/') url += '/';
url += name`. -/
def makeUrl (server : String) (name : String) : String :=
  let url := if 0 < server.length ∧ server.data.getLast? ≠ some '/'
             then server ++ "/" else server
  url ++ name

/-- The fields of the `BitstormResourceRequest` object built by
`createRequest`: `key` (resource name), `url`, and `type` (responseType). -/
structure ResourceRequestRec where
  key : String
  url : String
  type : String
deriving DecidableEq

/-- `BitstormDataStore.prototype.createRequest`: builds the request with the
joined URL and the given responseType. -/
def createRequest (server : String) (name : String) (responseType : String) :
    ResourceRequestRec :=
  { key := name, url := makeUrl server name, type := responseType }

/-- The XMLHttpRequest configuration performed at the top of `downloadData`:
`xhr.responseType = this.type; xhr.open('GET', this.url, true)`. -/
structure XhrSetup where
  method : String
  url : String
  responseType : String
deriving DecidableEq

/-- The transfer configuration `downloadData` applies for a given request. -/
def downloadSetup (req : ResourceRequestRec) : XhrSetup :=
  { method := "GET", url := req.url, responseType := req.type }

/-! ## Origin registry (BitstormContentServer) -/

/-- One record of `this.contentServers`, as pushed by `addContentServer`:
`{serverUrl: url, loadValue: 0}`. -/
structure ServerRecord where
  serverUrl : String
  loadValue : Int
deriving DecidableEq

/-- `BitstormContentServer.prototype.findContentServer`: first record whose
`serverUrl` equals the argument, or `null`. -/
def findContentServer : List ServerRecord → String → Option ServerRecord
  | [], _ => none
  | r :: rest, url =>
      if r.serverUrl = url then some r else findContentServer rest url

/-- `BitstormContentServer.prototype.addContentServer`: push a fresh record
with `loadValue` 0 when the URL is not yet registered. -/
def addContentServer (list : List ServerRecord) (url : String) : List ServerRecord :=
  match findContentServer list url with
  | some _ => list
  | none => list ++ [{ serverUrl := url, loadValue := 0 }]

/-- `BitstormContentServer.prototype.removeContentServer`: splice out the
first record whose `serverUrl` matches. -/
def removeContentServer : List ServerRecord → String → List ServerRecord
  | [], _ => []
  | r :: rest, url =>
      if r.serverUrl = url then rest else r :: removeContentServer rest url

/-- The loop body of `chooseContentServer`, carrying the running index `i`
and the `minid` variable exactly as the source does: an early `return
list[i]` when `loadValue == 0`, and `minid = i` when `loadValue < minid`
(note: the source compares the load value against the index `minid`). -/
def chooseLoop : List ServerRecord → Nat → Nat → Option ServerRecord × Nat
  | [], _, minid => (none, minid)
  | r :: rest, i, minid =>
      if r.loadValue = 0 then (some r, minid)
      else chooseLoop rest (i + 1) (if r.loadValue < (minid : Int) then i else minid)

/-- `BitstormContentServer.prototype.chooseContentServer`: runs the loop from
`i = 0`, `minid = 0`; when the loop falls through, returns `list[minid]`
when `minid < count`, otherwise `null`. -/
def chooseContentServer (list : List ServerRecord) : Option ServerRecord :=
  match chooseLoop list 0 0 with
  | (some r, _) => some r
  | (none, minid) => if minid < list.length then list[minid]? else none

/-- Selection as the specification words it (section 4.1): the registered
origin with the lowest `loadValue`, ties broken by registration order
(first registered wins); `none` on an empty registry.  Stated only for
comparison against `chooseContentServer`. -/
def selectByLowestLoad : List ServerRecord → Option ServerRecord
  | [] => none
  | r :: rest =>
      match selectByLowestLoad rest with
      | none => some r
      | some b => if r.loadValue ≤ b.loadValue then some r else some b

/-- `serverRecord.loadValue++` at dispatch (requestResource). -/
def dispatchIncrement (l : Int) : Int := l + 1

/-- `req.server.loadValue--` at the terminal transition (handleRequestData /
handleRequestError). -/
def terminalDecrement (l : Int) : Int := l - 1

/-- Increment the load of the first registry record with the given URL,
modelling the in-place `serverRecord.loadValue++` on the shared record. -/
def bumpLoad : List ServerRecord → String → List ServerRecord
  | [], _ => []
  | r :: rest, url =>
      if r.serverUrl = url then
        { r with loadValue := dispatchIncrement r.loadValue } :: rest
      else
        r :: bumpLoad rest url

/-! ## Content server request dispatch -/

/-- The state of a `BitstormContentServer` relevant to `requestResource`:
the map of ready data stores and the origin registry. -/
structure ContentServerState where
  dataStores : List (String × DataStoreRec)
  contentServers : List ServerRecord
deriving DecidableEq

/-- The `args` object of a `GET_RESOURCE` command.  `preferredServer` and
`responseType` are optional; `args.responseType || 'arraybuffer'` treats
both `undefined` and the empty string as absent. -/
structure RequestArgs where
  requestId : Nat
  cacheName : String
  preferredServer : Option String
  resourceName : String
  responseType : Option String
  returnCached : Bool
deriving DecidableEq

/-- JavaScript truthiness of the optional `preferredServer` string:
`undefined` and `''` are falsy. -/
def truthyString : Option String → Bool
  | some s => s ≠ ""
  | none => false

/-- `args.responseType || 'arraybuffer'`. -/
def resolveResponseType : Option String → String
  | some t => if t = "" then "arraybuffer" else t
  | none => "arraybuffer"

/-- Result of `BitstormContentServer.prototype.requestResource`: either the
early `emit('error', this, msg, requestId)` with `null` returned, an
uncaught TypeError (property access on a `null` server record), or a
dispatched request (origin chosen, listeners attached, load incremented,
request started). -/
inductive RequestOutcome where
  | cacheError (message : String) (requestId : Nat)
  | crash
  | dispatched (originUrl : String) (url : String) (responseType : String)
      (requestId : Nat)
deriving DecidableEq

/-- `BitstormContentServer.prototype.requestResource`, up to starting the
request: validates the cache, resolves the origin (preferred first, then
`chooseContentServer`), builds the request via `createRequest`, and
increments the chosen origin's load.  Returns the outcome together with the
updated server state. -/
def requestResource (st : ContentServerState) (args : RequestArgs) :
    RequestOutcome × ContentServerState :=
  match alistLookup st.dataStores args.cacheName with
  | none =>
      (RequestOutcome.cacheError
        ("Cache " ++ args.cacheName ++ " is not ready.") args.requestId, st)
  | some ds =>
      if ds.ready then
        let pref :=
          if truthyString args.preferredServer then
            findContentServer st.contentServers (args.preferredServer.getD "")
          else
            none
        let serverRecord :=
          match pref with
          | some r => some r
          | none => chooseContentServer st.contentServers
        match serverRecord with
        | none => (RequestOutcome.crash, st)
        | some rec =>
            (RequestOutcome.dispatched rec.serverUrl
              (makeUrl rec.serverUrl args.resourceName)
              (resolveResponseType args.responseType) args.requestId,
             { st with contentServers := bumpLoad st.contentServers rec.serverUrl })
      else
        (RequestOutcome.cacheError
          ("Cache " ++ args.cacheName ++ " is not ready.") args.requestId, st)

/-- The listener table of a freshly dispatched request, as built by the
three `request.on(...)` calls in `requestResource` (`data`, `error`,
`progress`, with callbacks identified as 0, 1, 2). -/
def requestListeners : ListenerMap :=
  onEvent (onEvent (onEvent [] "data" 0) "error" 1) "progress" 2

/-- `BitstormContentServer.prototype.handleRequestData`: calls
`req.removeAllListeners()` with no argument (so the property key written is
`"undefined"`) and decrements the origin load, then forwards the payload. -/
def handleRequestData (reqListeners : ListenerMap) (load : Int) :
    ListenerMap × Int :=
  (removeAllListeners reqListeners undefinedKey, terminalDecrement load)

/-- `BitstormContentServer.prototype.handleRequestError`: same teardown as
`handleRequestData`, forwarding the error instead. -/
def handleRequestError (reqListeners : ListenerMap) (load : Int) :
    ListenerMap × Int :=
  (removeAllListeners reqListeners undefinedKey, terminalDecrement load)

/-! ## Data store map maintenance (createDataStore / handlers) -/

/-- `BitstormContentServer.prototype.createDataStore` acting on the
`dataStores` map (store objects identified by allocation order `nextId`):
if the name is already mapped, nothing happens; otherwise a new
`BitstormDataStore` is constructed, subscribed and opened — note the map is
NOT updated here.  Returns (map, next fresh id, id of the store constructed
by this call, if any). -/
def createDataStore (m : List (String × Nat)) (nextId : Nat) (name : String) :
    List (String × Nat) × Nat × Option Nat :=
  match alistLookup m name with
  | some _ => (m, nextId, none)
  | none => (m, nextId + 1, some nextId)

/-- `BitstormContentServer.prototype.handleDataStoreReady`:
`this.dataStores[store.name] = store`. -/
def handleDataStoreReady (m : List (String × Nat)) (name : String) (id : Nat) :
    List (String × Nat) :=
  alistSet m name id

/-- `BitstormContentServer.prototype.handleDataStoreClosing`:
`delete this.dataStores[store.name]`. -/
def handleDataStoreClosing (m : List (String × Nat)) (name : String) :
    List (String × Nat) :=
  alistRemove m name

/-- `BitstormContentServer.prototype.deleteDataStore`: if the named store is
present it is closed (its `closing` event, when emitted, reaches
`handleDataStoreClosing`, which deletes the map entry), then the underlying
database is queued for deletion. -/
def deleteDataStore (st : ContentServerState) (name : String) : ContentServerState :=
  match alistLookup st.dataStores name with
  | some ds =>
      if (closeStore ds).2 then
        { st with dataStores := alistRemove st.dataStores name }
      else
        st
  | none => st

/-! ## Load-counter traces -/

/-- The two operations `requestResource` and the terminal handlers perform
on an origin's `loadValue`. -/
inductive LoadOp where
  | dispatch
  | terminate
deriving DecidableEq

/-- Apply one load operation: `loadValue++` at dispatch, `loadValue--` at
the terminal transition. -/
def applyLoadOp (l : Int) : LoadOp → Int
  | LoadOp.dispatch => dispatchIncrement l
  | LoadOp.terminate => terminalDecrement l

/-- Run a sequence of load operations on an origin's `loadValue`. -/
def runLoadOps (l : Int) : List LoadOp → Int
  | [] => l
  | op :: rest => runLoadOps (applyLoadOp l op) rest

/-- Number of dispatches in a trace. -/
def countDispatch : List LoadOp → Nat
  | [] => 0
  | LoadOp.dispatch :: rest => countDispatch rest + 1
  | LoadOp.terminate :: rest => countDispatch rest

/-- Number of terminal transitions in a trace. -/
def countTerminate : List LoadOp → Nat
  | [] => 0
  | LoadOp.dispatch :: rest => countTerminate rest
  | LoadOp.terminate :: rest => countTerminate rest + 1

/-- A trace is well formed when every prefix has at least as many dispatches
as terminations: each terminal transition belongs to a request dispatched
earlier (and, by the single-terminal property, to a distinct one). -/
def wellFormedB (ops : List LoadOp) : Bool :=
  (List.range (ops.length + 1)).all
    (fun n => decide (countTerminate (ops.take n) ≤ countDispatch (ops.take n)))

/-! ## Claim theorems -/

/-- Claim C1.  The claim says selection returns the registered origin with
the minimal `loadValue`, ties broken by registration order.  The code's own
doc comment promises the same ("The server with the lowest current load
value is selected"), but the loop compares the load value against the array
index `minid` (`lv < minid`), so when no origin has load 0, `minid` never
moves and `list[0]` is returned regardless of load.  At the failing input
(origin "A" at load 5 registered before origin "B" at load 1),
`chooseContentServer` returns "A" while the lowest-load origin (the spec's
`selectByLowestLoad`) is "B". -/
theorem c1_choose_ignores_load :
    chooseContentServer
        [{ serverUrl := "A", loadValue := 5 }, { serverUrl := "B", loadValue := 1 }] =
      some { serverUrl := "A", loadValue := 5 } ∧
    selectByLowestLoad
        [{ serverUrl := "A", loadValue := 5 }, { serverUrl := "B", loadValue := 1 }] =
      some { serverUrl := "B", loadValue := 1 } := by
  constructor
  · rfl
  · rfl

/-- Claim C6.  With a ready cache but an empty origin registry,
`chooseContentServer` returns `null` and `requestResource` immediately
evaluates `serverRecord.serverUrl` on that `null`, raising an uncaught
TypeError (modelled as `RequestOutcome.crash`): no `NoOriginAvailable`
error notification correlated to the request id is emitted, contradicting
the claim (and the selection function's own doc comment, which promises an
object with `serverUrl` and `loadValue` properties). -/
theorem c6_empty_registry_crashes :
    requestResource
        { dataStores := [("assets", { name := "assets", ready := true, dbOpen := true })],
          contentServers := [] }
        { requestId := 1, cacheName := "assets", preferredServer := none,
          resourceName := "x.bin", responseType := none, returnCached := true } =
      (RequestOutcome.crash,
       { dataStores := [("assets", { name := "assets", ready := true, dbOpen := true })],
         contentServers := [] }) := by
  rfl

/-- Claim C7.  The claim says the content server detaches all of a request's
subscriptions at its terminal notification.  `handleRequestData` calls
`req.removeAllListeners()` with no argument, but the emitter's
`removeAllListeners(event)` only nulls the single key `event` — here the
key `"undefined"` — so after the terminal transition the `data`, `error`
and `progress` callbacks (0, 1, 2 as attached by `requestResource`) are all
still registered, and a subsequent `emit` would still deliver them. -/
theorem c7_listeners_survive_terminal :
    (handleRequestData requestListeners 1).1 =
      [("data", some [0]), ("error", some [1]), ("progress", some [2]),
       ("undefined", none)] ∧
    emitListeners (handleRequestData requestListeners 1).1 "data" = [0] ∧
    emitListeners (handleRequestData requestListeners 1).1 "error" = [1] ∧
    emitListeners (handleRequestData requestListeners 1).1 "progress" = [2] := by
  refine ⟨rfl, rfl, rfl, rfl⟩

/-- Claim C8.  `deleteDataStore("assets")` while a request is downloading:
the map record is removed immediately (first conjunct — this half of the
claim matches the code) and the store's connection is closed.  But when the
in-flight request's write-back later runs, `cacheData` calls
`db.transaction` on the closed connection, which throws `InvalidStateError`
(second component `true` = crash) and emits no event at all — the request
never completes with the promised success notification, contradicting the
claim that the failure is handled as a non-fatal `CacheWriteFailed`. -/
theorem c8_write_back_after_delete_crashes :
    (deleteDataStore
        { dataStores := [("assets", { name := "assets", ready := true, dbOpen := true })],
          contentServers := [{ serverUrl := "", loadValue := 1 }] }
        "assets").dataStores = [] ∧
    (closeStore { name := "assets", ready := true, dbOpen := true }).1.dbOpen = false ∧
    cacheData (α := Nat)
        (closeStore { name := "assets", ready := true, dbOpen := true }).1.dbOpen
        WriteOutcome.complete 7 = ([], true) ∧
    terminalCount
        (cacheData (α := Nat)
          (closeStore { name := "assets", ready := true, dbOpen := true }).1.dbOpen
          WriteOutcome.complete 7).1 = 0 := by
  refine ⟨rfl, rfl, rfl, rfl⟩

/-- Claim C9 counterexample.  For the implicit empty-string origin the code
produces the bare resource name, not `originUrl + '/' + resourceName`
(which would be "/x.bin"). -/
theorem c9_counterexample :
    (createRequest "" "x.bin" "arraybuffer").url ≠ "" ++ "/" ++ "x.bin" := by
  decide

/-- Claim C9, amended.  The GET is configured against the URL obtained by
inserting a '/' between origin URL and resource name only when the origin
URL is non-empty and does not already end with '/'; otherwise the two are
concatenated directly (in particular, for the implicit empty-string origin
the URL is exactly the resource name).  The request's responseType is
applied to the transfer unchanged. -/
theorem c9_url_join (server : String) (name : String) (t : String) :
    (downloadSetup (createRequest server name t)).method = "GET" ∧
    (downloadSetup (createRequest server name t)).responseType = t ∧
    (downloadSetup (createRequest server name t)).url =
      (if 0 < server.length ∧ server.data.getLast? ≠ some '/'
       then server ++ "/" ++ name else server ++ name) := by
  refine ⟨rfl, rfl, ?_⟩
  by_cases h : 0 < server.length ∧ server.data.getLast? ≠ some '/'
  · simp [downloadSetup, createRequest, makeUrl, h]
  · simp [downloadSetup, createRequest, makeUrl, h]

/-- Claim C2.  A request that reaches the caching step after a successful
download (HTTP status in [200,300), write-back transaction available)
emits exactly the progress events followed by the single `data` success
event carrying the already-downloaded response — for both write outcomes
(`txn.oncomplete` and `txn.onerror`) — and never an `error` event. -/
theorem c2_cache_write_nonfatal {α : Type} (pe : List Nat) (stext : String)
    (status : Nat) (resp : α) (w : WriteOutcome)
    (h : 200 ≤ status ∧ status < 300) :
    downloadData pe stext (NetOutcome.loaded status resp) true w =
      (List.map REvent.progress pe ++ [REvent.data resp], false) := by
  cases w <;> simp [downloadData, cacheData, h]

/-- Witness for C2 at a concrete input: status 200 with a failing cache
write still yields the success event with the downloaded data. -/
theorem c2_witness :
    downloadData [] "" (NetOutcome.loaded 200 (0 : Nat)) true WriteOutcome.error =
      ([REvent.data 0], false) :=
  c2_cache_write_nonfatal [] "" 200 0 WriteOutcome.error (by decide)

/-- Claim C5.  When the named cache is unknown (absent from `dataStores`) or
known but not ready, `requestResource` returns the error outcome carrying
the caller's request id — with the exact message the code emits — and the
server state (both the data-store map and the origin registry with its load
counters) is unchanged; no request is dispatched. -/
theorem c5_unready_cache_rejected (st : ContentServerState) (args : RequestArgs)
    (h : ∀ ds, alistLookup st.dataStores args.cacheName = some ds → ds.ready = false) :
    requestResource st args =
      (RequestOutcome.cacheError ("Cache " ++ args.cacheName ++ " is not ready.")
        args.requestId, st) := by
  unfold requestResource
  cases hds : alistLookup st.dataStores args.cacheName with
  | none => rfl
  | some ds => simp [h ds hds]

/-- Witness for C5: a request against a never-opened cache name is rejected
with the correlated error and the state is untouched. -/
theorem c5_witness :
    requestResource { dataStores := [], contentServers := [] }
        { requestId := 1, cacheName := "assets", preferredServer := none,
          resourceName := "x.bin", responseType := none, returnCached := true } =
      (RequestOutcome.cacheError ("Cache " ++ "assets" ++ " is not ready.") 1,
       { dataStores := [], contentServers := [] }) :=
  c5_unready_cache_rejected
    { dataStores := [], contentServers := [] }
    { requestId := 1, cacheName := "assets", preferredServer := none,
      resourceName := "x.bin", responseType := none, returnCached := true }
    (by intro ds hds; simp [alistLookup] at hds)

/-- Looking up the key just written by `alistSet` yields the new value. -/
theorem alistLookup_set_self {β : Type} (m : List (String × β)) (k : String) (v : β) :
    alistLookup (alistSet m k v) k = some v := by
  induction m with
  | nil => simp [alistSet, alistLookup]
  | cons p rest ih =>
      obtain ⟨q, w⟩ := p
      by_cases hq : q = k
      · simp [alistSet, alistLookup, hq]
      · simp [alistSet, alistLookup, hq, ih]

/-- Deleting a key right after inserting it into a map that did not contain
it restores the original map. -/
theorem alistRemove_set_of_lookup_none {β : Type} (m : List (String × β))
    (k : String) (v : β) (h : alistLookup m k = none) :
    alistRemove (alistSet m k v) k = m := by
  induction m with
  | nil => simp [alistSet, alistRemove]
  | cons p rest ih =>
      obtain ⟨q, w⟩ := p
      by_cases hq : q = k
      · simp [alistLookup, hq] at h
      · simp [alistLookup, hq] at h
        simp [alistSet, alistRemove, hq, ih h]

/-- Claim C10.  `createDataStore` never modifies the `dataStores` map — the
entry appears only when `handleDataStoreReady` runs (the store's `ready`
event) and disappears in `handleDataStoreClosing` (the store's `closing`
event).  Consequently, while an open is pending for a name not yet mapped,
a second `createDataStore` call for the same name is not a no-op: it
constructs and opens a second, distinct data store object. -/
theorem c10_map_updates_only_on_ready (m : List (String × Nat)) (nextId : Nat)
    (name : String) (id : Nat) (h : alistLookup m name = none) :
    createDataStore m nextId name = (m, nextId + 1, some nextId) ∧
    createDataStore m (nextId + 1) name = (m, nextId + 2, some (nextId + 1)) ∧
    nextId ≠ nextId + 1 ∧
    alistLookup (handleDataStoreReady m name id) name = some id ∧
    alistLookup (handleDataStoreClosing (handleDataStoreReady m name id) name) name
      = none := by
  refine ⟨?_, ?_, ?_, ?_, ?_⟩
  · simp [createDataStore, h]
  · simp [createDataStore, h]
  · omega
  · exact alistLookup_set_self m name id
  · simp [handleDataStoreClosing, handleDataStoreReady,
      alistRemove_set_of_lookup_none m name id h, h]

/-- Witness for C10 at a concrete input: two back-to-back opens of a not-yet
ready cache construct stores 0 and 1, and the map tracks ready/closing. -/
theorem c10_witness :
    createDataStore [] 0 "assets" = ([], 1, some 0) ∧
    createDataStore [] 1 "assets" = ([], 2, some 1) ∧
    (0 : Nat) ≠ 1 ∧
    alistLookup (handleDataStoreReady [] "assets" 3) "assets" = some 3 ∧
    alistLookup
        (handleDataStoreClosing (handleDataStoreReady [] "assets" 3) "assets")
        "assets" = none :=
  c10_map_updates_only_on_ready [] 0 "assets" 3 rfl

/-- Running a trace of load operations lands on the initial value plus the
number of dispatches minus the number of terminations. -/
theorem runLoadOps_count (ops : List LoadOp) : ∀ l : Int,
    runLoadOps l ops = l + (countDispatch ops : Int) - (countTerminate ops : Int) := by
  induction ops with
  | nil => intro l; simp [runLoadOps, countDispatch, countTerminate]
  | cons op rest ih =>
      intro l
      cases op <;>
        simp [runLoadOps, applyLoadOp, dispatchIncrement, terminalDecrement,
          countDispatch, countTerminate, ih] <;>
        omega

/-- In a well-formed trace, every prefix keeps the load at or above its
starting point; in particular it never becomes negative from a nonnegative
start. -/
theorem runLoadOps_take_nonneg (l : Int) (ops : List LoadOp)
    (hwf : wellFormedB ops = true) (hl : 0 ≤ l) (n : Nat) :
    0 ≤ runLoadOps l (ops.take n) := by
  unfold wellFormedB at hwf
  have hw : ∀ k, k < ops.length + 1 →
      countTerminate (ops.take k) ≤ countDispatch (ops.take k) := by
    intro k hk
    have hk2 := (List.all_eq_true.mp hwf) k (List.mem_range.mpr hk)
    exact of_decide_eq_true hk2
  have hb : countTerminate (ops.take n) ≤ countDispatch (ops.take n) := by
    by_cases hn : n ≤ ops.length
    · exact hw n (Nat.lt_succ_of_le hn)
    · have hlen : ops.length ≤ n := le_of_lt (Nat.lt_of_not_le hn)
      have htake : ops.take n = ops := List.take_of_length_le hlen
      have h2 := hw ops.length (Nat.lt_succ_self _)
      rw [List.take_length] at h2
      rw [htake]
      exact h2
  have hc := runLoadOps_count (ops.take n) l
  omega

/-- Claim C3.  The origin load changes by exactly +1 at dispatch
(`loadValue++` in `requestResource`) and exactly −1 at the terminal
transition (`loadValue--` in `handleRequestData`/`handleRequestError`); a
trace with N dispatches and N terminations returns the load to its
pre-sequence value; and along any well-formed trace (each termination
matching an earlier dispatch) a load starting nonnegative never becomes
negative. -/
theorem c3_load_balance (l : Int) (ops : List LoadOp)
    (hbal : countDispatch ops = countTerminate ops)
    (hwf : wellFormedB ops = true) (hl : 0 ≤ l) :
    (∀ m : Int, applyLoadOp m LoadOp.dispatch = m + 1 ∧
       applyLoadOp m LoadOp.terminate = m - 1) ∧
    runLoadOps l ops = l ∧
    (∀ n : Nat, 0 ≤ runLoadOps l (ops.take n)) := by
  refine ⟨fun m => ⟨rfl, rfl⟩, ?_, fun n => runLoadOps_take_nonneg l ops hwf hl n⟩
  have hc := runLoadOps_count ops l
  omega

/-- Witness for C3: one dispatch followed by its termination brings a load
of 0 back to 0 and stays nonnegative after the dispatch. -/
theorem c3_witness :
    runLoadOps 0 [LoadOp.dispatch, LoadOp.terminate] = 0 ∧
    0 ≤ runLoadOps 0 ([LoadOp.dispatch, LoadOp.terminate].take 1) :=
  ⟨(c3_load_balance 0 [LoadOp.dispatch, LoadOp.terminate] (by decide) (by decide)
      (by decide)).2.1,
   (c3_load_balance 0 [LoadOp.dispatch, LoadOp.terminate] (by decide) (by decide)
      (by decide)).2.2 1⟩

/-- Progress events contribute nothing to the terminal-event count. -/
theorem terminalCount_progress_append {α : Type} (pe : List Nat)
    (evs : List (REvent α)) :
    terminalCount (List.map REvent.progress pe ++ evs) = terminalCount evs := by
  induction pe with
  | nil => rfl
  | cons a rest ih => simp [terminalCount, isTerminal, List.filter_cons, ih]

/-- A list of progress events alone has no terminal event. -/
theorem terminalCount_progress_map {α : Type} (pe : List Nat) :
    terminalCount (List.map (REvent.progress : Nat → REvent α) pe) = 0 := by
  simpa using terminalCount_progress_append pe ([] : List (REvent α))

/-- A lone success event is one terminal event. -/
theorem terminalCount_singleton_data {α : Type} (v : α) :
    terminalCount [REvent.data v] = 1 := rfl

/-- A lone error event is one terminal event. -/
theorem terminalCount_singleton_error {α : Type} (s : String) :
    terminalCount ([REvent.error s] : List (REvent α)) = 1 := rfl

/-- Claim C4.  A started request emits at most one terminal event on every
path (never both a success and an error), and — whenever the write-back
transaction can be created, i.e. outside the deleted-store race of C8 —
each path (cache hit; download failure by non-2xx status or transport
error; download followed by cache write, succeeding or failing) emits
exactly one terminal event. -/
theorem c4_single_terminal {α : Type} (checkCache : Bool) (lk : LookupOutcome α)
    (pe : List Nat) (stext : String) (net : NetOutcome α) (dbOpen : Bool)
    (w : WriteOutcome) :
    terminalCount (start checkCache lk pe stext net dbOpen w).1 ≤ 1 ∧
    (dbOpen = true →
      terminalCount (start checkCache lk pe stext net dbOpen w).1 = 1) := by
  have hd : terminalCount (downloadData pe stext net dbOpen w).1 ≤ 1 ∧
      (dbOpen = true →
        terminalCount (downloadData pe stext net dbOpen w).1 = 1) := by
    cases net with
    | loaded s r =>
        by_cases hs : 200 ≤ s ∧ s < 300
        · cases dbOpen with
          | false =>
              cases w <;>
                simp [downloadData, cacheData, hs, terminalCount_progress_append,
                  terminalCount_progress_map, terminalCount_singleton_data]
          | true =>
              cases w <;>
                simp [downloadData, cacheData, hs, terminalCount_progress_append,
                  terminalCount_singleton_data]
        · simp [downloadData, hs, terminalCount_progress_append,
            terminalCount_singleton_error]
    | netError =>
        simp [downloadData, terminalCount_progress_append,
          terminalCount_singleton_error]
  cases checkCache with
  | false => simpa [start] using hd
  | true =>
      cases lk with
      | hit v => simp [start, queryDataStore, terminalCount_singleton_data]
      | miss => simpa [start, queryDataStore] using hd
      | lookupError => simpa [start, queryDataStore] using hd

/-- Witness for C4: a cache miss followed by a 200 download whose cache
write fails still emits exactly one terminal event. -/
theorem c4_witness :
    terminalCount
        (start true (LookupOutcome.miss : LookupOutcome Nat) [5] "err"
          (NetOutcome.loaded 200 3) true WriteOutcome.error).1 = 1 :=
  (c4_single_terminal true (LookupOutcome.miss : LookupOutcome Nat) [5] "err"
      (NetOutcome.loaded 200 3) true WriteOutcome.error).2 rfl

end Bitstorm
